import Mathlib

/-!
Shallow embedding of the ROV operations dashboard (`app.py`).

The program has two logical components: a telemetry generator
(`_generate_sample_data`) producing a data frame of `num_records` rows, and a
time-window filter (`sidebar_filters`) selecting the suffix of rows newer than
a cutoff.  The rendering functions (`mission_overview` and friends) only read
the frame; the one piece of rendering logic with failure behaviour is the
delta computation in `mission_overview`, which indexes `df.iloc[-2]`.

Modelling choices:
* a data-frame row becomes a `Sample` record of rationals; a frame is a
  `List Sample` (row order = positional index);
* timestamps are rationals measured in minutes (the code only ever subtracts
  `timedelta(minutes=…)` from `datetime.utcnow()` and compares);
* the Gaussian draws of `np.random.normal` are an arbitrary family of
  rationals, bundled in `Noise`: every theorem quantifies over them, which
  models "for any random seed";
* fallible indexing (`df.iloc[-2]` raising `IndexError`) returns `Option`.
-/

namespace ROVDash

/-- One row of the generated telemetry frame: the columns built in
`_generate_sample_data`. -/
structure Sample where
  timestamp : ℚ
  depth_m : ℚ
  temperature_c : ℚ
  pressure_kpa : ℚ
  power_pct : ℚ
  heading_deg : ℚ
  speed_knots : ℚ
  deriving Repr, DecidableEq

/-- The random draws of one run of `_generate_sample_data`: one rational per
row for each of the six `np.random.normal` calls.  Quantifying over a `Noise`
quantifies over the random seed. -/
structure Noise where
  depthNoise : ℕ → ℚ
  tempNoise : ℕ → ℚ
  pressNoise : ℕ → ℚ
  powerNoise : ℕ → ℚ
  headingStep : ℕ → ℚ
  speedNoise : ℕ → ℚ

/-- The all-zero draw, used to evaluate the model at concrete inputs. -/
def zeroNoise : Noise :=
  ⟨fun _ => 0, fun _ => 0, fun _ => 0, fun _ => 0, fun _ => 0, fun _ => 0⟩

/-- `np.clip x lo hi = np.minimum(hi, np.maximum(x, lo))`. -/
def clip (x lo hi : ℚ) : ℚ := min hi (max lo x)

/-- `np.linspace a b n` at index `i`: `n` evenly spaced points from `a` to
`b` inclusive (a single point degenerates to `a`). -/
def linspace (a b : ℚ) (n i : ℕ) : ℚ :=
  if n ≤ 1 then a else a + (b - a) * i / ((n : ℚ) - 1)

/-- `np.cumsum f` at index `i`: the partial sum `f 0 + ⋯ + f i` (the current
element included, as `np.cumsum` does). -/
def cumsum (f : ℕ → ℚ) : ℕ → ℚ
  | 0 => f 0
  | i + 1 => cumsum f i + f (i + 1)

/-- The float `%` of Python / numpy with a positive modulus: `x % 360`,
always in `[0, 360)`. -/
def wrap360 (x : ℚ) : ℚ := x - 360 * ⌊x / 360⌋

/-- Row `i` (0-based, oldest first) of the frame built by
`_generate_sample_data(n)` when the current instant is `T`:
`timestamps = [now - timedelta(minutes=5*i) for i in range(n)][::-1]`, so the
row at index `i` carries timestamp `T - 5*(n-1-i)`, and each column follows
the source expression for that row. -/
def sampleAt (T : ℚ) (nz : Noise) (n i : ℕ) : Sample where
  timestamp := T - 5 * ((n : ℚ) - 1 - (i : ℚ))
  depth_m := linspace 100 350 n i + nz.depthNoise i
  temperature_c := 4 + (5 / 1000) * (i : ℚ) + nz.tempNoise i
  pressure_kpa := (13 / 10) * (linspace 100 350 n i + nz.depthNoise i) + nz.pressNoise i
  power_pct := clip (75 + nz.powerNoise i) 60 95
  heading_deg := wrap360 (180 + cumsum nz.headingStep i)
  speed_knots := clip ((5 / 2) + nz.speedNoise i) 1 (7 / 2)

/-- `_generate_sample_data(num_records)` at current instant `T` with draws
`nz`: the list of rows, oldest first. -/
def generateSampleData (numRecords : ℕ) (T : ℚ) (nz : Noise) : List Sample :=
  (List.range numRecords).map (sampleAt T nz numRecords)

/-- The default `num_records` of `_generate_sample_data`. -/
def defaultNumRecords : ℕ := 120

/-- `df["timestamp"].max()`: `none` on an empty frame (pandas yields `NaN`,
and every subsequent comparison against it is false). -/
def maxTimestamp : List Sample → Option ℚ
  | [] => none
  | s :: rest =>
    some (match maxTimestamp rest with
          | none => s.timestamp
          | some m => max s.timestamp m)

/-- The selectable windows of the sidebar radio, in minutes: the values of
`time_options` ("Last 30 minutes" … "All data"); `none` is "All data". -/
def timeOptions : List (Option ℚ) := [some 30, some 60, some 180, some 360, none]

/-- The data path of `sidebar_filters`: `None` returns `df` unchanged,
otherwise `df[df["timestamp"] >= df["timestamp"].max() - minutes]`.  On an
empty frame the cutoff is `NaN` and the mask is all-false. -/
def sidebarFilter (minutes : Option ℚ) (df : List Sample) : List Sample :=
  match minutes with
  | none => df
  | some w =>
    match maxTimestamp df with
    | none => []
    | some m => df.filter fun s => decide (m - w ≤ s.timestamp)

/-- `sidebar_filters` as a call on the frame: what it returns, paired with
the frame as it stands after the call (boolean-mask selection builds a new
frame; nothing in the function mutates `df`). -/
def sidebarFiltersCall (minutes : Option ℚ) (df : List Sample) :
    List Sample × List Sample :=
  (sidebarFilter minutes df, df)

/-- The `MissionStatus` dataclass. `start_time` is a rational instant in
minutes, like the timestamps. -/
structure MissionStatus where
  mission_name : String
  objective : String
  location : String
  pilot : String
  supervisor : String
  start_time : ℚ
  status : String
  notes : String
  deriving Repr, DecidableEq

/-- The module-level `MISSION` record, built once at session start `t`:
`start_time = utcnow() - timedelta(hours=3, minutes=27)`. -/
def MISSION (t : ℚ) : MissionStatus where
  mission_name := "Poseidon-7 Survey"
  objective := "Map subsea pipeline integrity and capture HD imagery"
  location := "North Sea Block 15"
  pilot := "Casey Morgan"
  supervisor := "Lt. Priya Desai"
  start_time := t - (3 * 60 + 27)
  status := "Active"
  notes := "Monitoring cross-current turbulence; maintain depth < 350m."

/-- `df.iloc[i]` with pandas integer-location semantics: a negative `i`
counts from the end; an index out of range raises `IndexError`, modelled as
`none`. -/
def iloc (xs : List Sample) (i : ℤ) : Option Sample :=
  if 0 ≤ i then xs.get? i.toNat
  else
    let j : ℤ := (xs.length : ℤ) + i
    if 0 ≤ j then xs.get? j.toNat else none

/-- The four metric tiles of `mission_overview`: value shown, and the deltas
taken against the previous row. -/
structure OverviewMetrics where
  depth : ℚ
  depthDelta : ℚ
  temperature : ℚ
  temperatureDelta : ℚ
  pressure : ℚ
  power : ℚ
  powerDelta : ℚ
  deriving Repr, DecidableEq

/-- The metric computation of `mission_overview` (lines 109-114):
`latest = df.iloc[-1]` and every delta reads `df.iloc[-2]`, unconditionally.
`none` models the `IndexError` pandas raises when the index is out of
range. -/
def missionOverviewMetrics (df : List Sample) : Option OverviewMetrics :=
  match iloc df (-1) with
  | none => none
  | some latest =>
    match iloc df (-2) with
    | none => none
    | some prev =>
      some
        { depth := latest.depth_m
          depthDelta := latest.depth_m - prev.depth_m
          temperature := latest.temperature_c
          temperatureDelta := latest.temperature_c - prev.temperature_c
          pressure := latest.pressure_kpa
          power := latest.power_pct
          powerDelta := latest.power_pct - prev.power_pct }

/-- What the "Mission Details" expander shows: every field is read straight
off the record. -/
structure MissionDetailsView where
  mission : String
  statusText : String
  elapsedMinutes : ℚ
  pilot : String
  objective : String
  location : String
  supervisor : String
  notes : String
  deriving Repr, DecidableEq

/-- The mission-details rendering of `mission_overview`: pure reads of the
record's fields (plus the elapsed time against the current instant). -/
def renderMissionDetails (now : ℚ) (status : MissionStatus) : MissionDetailsView where
  mission := status.mission_name
  statusText := status.status
  elapsedMinutes := now - status.start_time
  pilot := status.pilot
  objective := status.objective
  location := status.location
  supervisor := status.supervisor
  notes := status.notes

/-- `mission_overview(status, df)` as a call: the record as it stands after
the call, the details view, and the metric tiles (or `none` when the
computation raises). -/
def missionOverviewCall (now : ℚ) (status : MissionStatus) (df : List Sample) :
    MissionStatus × MissionDetailsView × Option OverviewMetrics :=
  (status, renderMissionDetails now status, missionOverviewMetrics df)

/-- The mission record as it stands after the script body has filtered the
frame and rendered the overview: the whole run never writes to it. -/
def missionAfterRun (t now : ℚ) (minutes : Option ℚ) (df : List Sample) :
    MissionStatus :=
  (missionOverviewCall now (MISSION t) (sidebarFilter minutes df)).1

/-! ## Facts about the timestamp maximum -/

/-- The maximum is missing exactly on an empty frame. -/
theorem maxTimestamp_eq_none {df : List Sample} :
    maxTimestamp df = none ↔ df = [] := by
  cases df <;> simp [maxTimestamp]

/-- A non-empty frame has a maximum timestamp. -/
theorem maxTimestamp_isSome {df : List Sample} (h : df ≠ []) :
    ∃ m, maxTimestamp df = some m := by
  cases df with
  | nil => exact absurd rfl h
  | cons s rest => exact ⟨_, rfl⟩

/-- The maximum timestamp is attained by some row. -/
theorem maxTimestamp_mem {df : List Sample} {m : ℚ}
    (h : maxTimestamp df = some m) : ∃ s ∈ df, s.timestamp = m := by
  induction df generalizing m with
  | nil => simp [maxTimestamp] at h
  | cons s rest ih =>
    rw [maxTimestamp] at h
    cases hr : maxTimestamp rest with
    | none =>
      rw [hr] at h
      simp only [Option.some.injEq] at h
      exact ⟨s, List.mem_cons_self s rest, h⟩
    | some m0 =>
      rw [hr] at h
      simp only [Option.some.injEq] at h
      rcases max_choice s.timestamp m0 with hc | hc
      · exact ⟨s, List.mem_cons_self s rest, by rw [← h, hc]⟩
      · obtain ⟨u, hu, hue⟩ := ih hr
        exact ⟨u, List.mem_cons_of_mem s hu, by rw [hue, ← h, hc]⟩

/-- The maximum timestamp bounds every row's timestamp. -/
theorem le_maxTimestamp {df : List Sample} {m : ℚ}
    (h : maxTimestamp df = some m) : ∀ s ∈ df, s.timestamp ≤ m := by
  induction df generalizing m with
  | nil => simp
  | cons s rest ih =>
    rw [maxTimestamp] at h
    intro u hu
    cases hr : maxTimestamp rest with
    | none =>
      have hrest : rest = [] := maxTimestamp_eq_none.mp hr
      rw [hr] at h
      simp only [Option.some.injEq] at h
      subst hrest
      rcases List.mem_cons.mp hu with rfl | hu2
      · exact le_of_eq h
      · simp at hu2
    | some m0 =>
      rw [hr] at h
      simp only [Option.some.injEq] at h
      rcases List.mem_cons.mp hu with rfl | hu2
      · rw [← h]; exact le_max_left _ _
      · calc u.timestamp ≤ m0 := ih hr u hu2
          _ ≤ m := by rw [← h]; exact le_max_right _ _

/-- An attained upper bound of the timestamps is the maximum. -/
theorem maxTimestamp_eq_some {df : List Sample} {s : Sample} {m : ℚ}
    (hs : s ∈ df) (hts : s.timestamp = m)
    (hub : ∀ u ∈ df, u.timestamp ≤ m) : maxTimestamp df = some m := by
  obtain ⟨m1, hm1⟩ := maxTimestamp_isSome (List.ne_nil_of_mem hs)
  obtain ⟨u, hu, hue⟩ := maxTimestamp_mem hm1
  have h1 : m1 ≤ m := hue ▸ hub u hu
  have h2 : m ≤ m1 := hts ▸ le_maxTimestamp hm1 s hs
  rw [hm1, le_antisymm h1 h2]

/-! ## Facts about the generator -/

/-- Membership in the generated series is being one of the `n` rows. -/
theorem mem_generate {n : ℕ} {T : ℚ} {nz : Noise} {s : Sample} :
    s ∈ generateSampleData n T nz ↔ ∃ i < n, s = sampleAt T nz n i := by
  simp [generateSampleData, List.mem_map, eq_comm]

/-- The timestamp of row `i`, read off the construction. -/
theorem timestamp_sampleAt {T : ℚ} {nz : Noise} {n i : ℕ} :
    (sampleAt T nz n i).timestamp = T - 5 * ((n : ℚ) - 1 - (i : ℚ)) := rfl

/-- No generated timestamp exceeds the current instant. -/
theorem timestamp_sampleAt_le {T : ℚ} {nz : Noise} {n i : ℕ} (hi : i < n) :
    (sampleAt T nz n i).timestamp ≤ T := by
  rw [timestamp_sampleAt]
  have : (i : ℚ) + 1 ≤ (n : ℚ) := by exact_mod_cast hi
  linarith

/-- The maximum timestamp of a generated series is the current instant `T`
(the newest sample sits at the end). -/
theorem maxTimestamp_generate {n : ℕ} {T : ℚ} {nz : Noise} (hn : 1 ≤ n) :
    maxTimestamp (generateSampleData n T nz) = some T := by
  apply maxTimestamp_eq_some (s := sampleAt T nz n (n - 1))
  · exact mem_generate.mpr ⟨n - 1, by omega, rfl⟩
  · rw [timestamp_sampleAt]
    have h : ((n - 1 : ℕ) : ℚ) = (n : ℚ) - 1 := by
      have := Nat.cast_sub (R := ℚ) hn
      simpa using this
    rw [h]; ring
  · intro u hu
    obtain ⟨i, hilt, rfl⟩ := mem_generate.mp hu
    exact timestamp_sampleAt_le hilt

/-! ## Facts about the filter -/

/-- Selecting "All data" is the identity. -/
theorem sidebarFilter_none (df : List Sample) : sidebarFilter none df = df := rfl

/-- Filtering an empty frame yields an empty frame. -/
theorem sidebarFilter_nil (mins : Option ℚ) : sidebarFilter mins [] = [] := by
  cases mins <;> rfl

/-- On a frame whose maximum timestamp is `m`, the window filter is the
boolean-mask selection against the cutoff `m - w`. -/
theorem sidebarFilter_some {df : List Sample} {m : ℚ} (w : ℚ)
    (hm : maxTimestamp df = some m) :
    sidebarFilter (some w) df
      = df.filter fun s => decide (m - w ≤ s.timestamp) := by
  simp [sidebarFilter, hm]

/-- A row survives the window filter exactly when it is a row of the input
and its timestamp is at least the cutoff. -/
theorem mem_sidebarFilter {df : List Sample} {m : ℚ} {w : ℚ} {s : Sample}
    (hm : maxTimestamp df = some m) :
    s ∈ sidebarFilter (some w) df ↔ s ∈ df ∧ m - w ≤ s.timestamp := by
  rw [sidebarFilter_some w hm, List.mem_filter, decide_eq_true_eq]

/-- The filter output is a sublist of its input: same relative order, no
duplication, no insertion. -/
theorem sidebarFilter_sublist (mins : Option ℚ) (df : List Sample) :
    (sidebarFilter mins df).Sublist df := by
  cases mins with
  | none => exact List.Sublist.refl df
  | some w =>
    cases hm : maxTimestamp df with
    | none =>
      rw [maxTimestamp_eq_none.mp hm]
      exact (sidebarFilter_nil _) ▸ List.Sublist.refl _
    | some m => rw [sidebarFilter_some w hm]; exact List.filter_sublist df

/-- Re-filtering by any wider (or equal) window keeps every surviving row:
the survivors' maximum is at most the original maximum, so the new cutoff is
at most the old one. -/
theorem sidebarFilter_idem {w w' : ℚ} (df : List Sample) (h : w ≤ w') :
    sidebarFilter (some w') (sidebarFilter (some w) df)
      = sidebarFilter (some w) df := by
  cases hdf : maxTimestamp df with
  | none =>
    rw [maxTimestamp_eq_none.mp hdf, sidebarFilter_nil, sidebarFilter_nil]
  | some m =>
    rw [sidebarFilter_some w hdf]
    cases hr : maxTimestamp (df.filter fun s => decide (m - w ≤ s.timestamp)) with
    | none =>
      rw [maxTimestamp_eq_none.mp hr, sidebarFilter_nil]
    | some m1 =>
      rw [sidebarFilter_some w' hr]
      apply List.filter_eq_self.mpr
      intro s hs
      obtain ⟨hsd, hsw⟩ := List.mem_filter.mp hs
      rw [decide_eq_true_eq] at hsw
      have hm1 : m1 ≤ m := by
        obtain ⟨u, hu, hue⟩ := maxTimestamp_mem hr
        exact hue ▸ le_maxTimestamp hdf u (List.mem_filter.mp hu).1
      rw [decide_eq_true_eq]
      linarith

/-! ## The claims -/

/-- Claim C1: for every series with maximum timestamp `m` and every window
`w`, the filter returns exactly the subsequence of samples whose timestamp is
at least `m - w`; selecting "all" returns the series unchanged; a window
wider than the data span returns the full series; and for a series of 10
samples spaced 5 minutes apart ending at `T`, a 20-minute window returns
exactly the last 5 samples (the one at `T` included). -/
theorem sidebar_filter_window_spec (df : List Sample) (w m : ℚ)
    (hm : maxTimestamp df = some m) :
    sidebarFilter (some w) df = df.filter (fun s => decide (m - w ≤ s.timestamp))
    ∧ (∀ s, s ∈ sidebarFilter (some w) df ↔ s ∈ df ∧ m - w ≤ s.timestamp)
    ∧ (∀ df' : List Sample, sidebarFilter none df' = df')
    ∧ ((∀ s ∈ df, m - s.timestamp ≤ w) → sidebarFilter (some w) df = df)
    ∧ (∀ (T : ℚ) (nz : Noise),
        sidebarFilter (some 20) (generateSampleData 10 T nz)
          = (generateSampleData 10 T nz).drop 5
        ∧ ((generateSampleData 10 T nz).drop 5).length = 5) := by
  refine ⟨sidebarFilter_some w hm, fun s => mem_sidebarFilter hm,
    fun df' => rfl, ?_, ?_⟩
  · intro hwide
    rw [sidebarFilter_some w hm]
    apply List.filter_eq_self.mpr
    intro s hs
    rw [decide_eq_true_eq]
    have := hwide s hs
    linarith
  · intro T nz
    constructor
    · rw [sidebarFilter_some 20 (maxTimestamp_generate (by norm_num))]
      show (List.map (sampleAt T nz 10) (List.range 10)).filter _
          = (List.map (sampleAt T nz 10) (List.range 10)).drop 5
      rw [show List.range 10 = [0, 1, 2, 3, 4, 5, 6, 7, 8, 9] from rfl]
      simp only [List.map_cons, List.map_nil, List.filter_cons, List.filter_nil,
        timestamp_sampleAt, decide_eq_true_eq, sub_le_sub_iff_left]
      norm_num [List.drop]
    · simp [generateSampleData]

/-- Witness for C1: the 20-minute window over 10 samples ending at instant 0
with the zero draw keeps exactly the last 5 rows. -/
theorem sidebar_filter_window_spec_witness :
    sidebarFilter (some 20) (generateSampleData 10 0 zeroNoise)
      = (generateSampleData 10 0 zeroNoise).drop 5 :=
  ((sidebar_filter_window_spec (generateSampleData 10 0 zeroNoise) 20 0
      (maxTimestamp_generate (by norm_num))).2.2.2.2 0 zeroNoise).1

/-- Claim C2: for every `n ≥ 1` and instant `T`, the generator produces
exactly `n` samples, with timestamp `T - 5*(n-1-i)` at index `i`, a fixed
ascending 5-minute stride, strictly ascending timestamps, and the newest
sample (the last) at `T`; generation is total, so it always succeeds. -/
theorem generate_series_shape (n : ℕ) (T : ℚ) (nz : Noise) (hn : 1 ≤ n) :
    (generateSampleData n T nz).length = n
    ∧ (∀ i, ∀ hi : i < (generateSampleData n T nz).length,
        (generateSampleData n T nz)[i].timestamp
          = T - 5 * ((n : ℚ) - 1 - (i : ℚ)))
    ∧ (∀ i, ∀ hi : i + 1 < (generateSampleData n T nz).length,
        (generateSampleData n T nz)[i + 1].timestamp
          = (generateSampleData n T nz)[i].timestamp + 5)
    ∧ List.Pairwise (fun a b => a.timestamp < b.timestamp)
        (generateSampleData n T nz)
    ∧ ∀ h : generateSampleData n T nz ≠ [],
        ((generateSampleData n T nz).getLast h).timestamp = T := by
  refine ⟨by simp [generateSampleData], ?_, ?_, ?_, ?_⟩
  · intro i hi
    simp [generateSampleData, timestamp_sampleAt]
  · intro i hi
    simp only [generateSampleData, List.getElem_map, List.getElem_range,
      timestamp_sampleAt]
    push_cast
    ring
  · rw [generateSampleData, List.pairwise_map]
    refine (List.pairwise_lt_range n).imp ?_
    intro a b hab
    rw [timestamp_sampleAt, timestamp_sampleAt]
    have : (a : ℚ) < (b : ℚ) := by exact_mod_cast hab
    linarith
  · intro h
    rw [List.getLast_eq_getElem]
    simp only [generateSampleData, List.getElem_map, List.getElem_range,
      List.length_map, List.length_range, timestamp_sampleAt]
    have hcast : ((n - 1 : ℕ) : ℚ) = (n : ℚ) - 1 := by
      have := Nat.cast_sub (R := ℚ) hn
      simpa using this
    rw [hcast]
    ring

/-- Witness for C2: three samples at instant 0 with the zero draw. -/
theorem generate_series_shape_witness :
    (generateSampleData 3 0 zeroNoise).length = 3 :=
  (generate_series_shape 3 0 zeroNoise (by norm_num)).1

/-- Claim C3 (code bug): the delta in `mission_overview` reads `df.iloc[-2]`
unconditionally, so on a series with a single sample the metric computation
raises `IndexError` (modelled: returns `none`) instead of skipping the delta;
with two or more samples it succeeds. -/
theorem mission_overview_single_sample_raises :
    missionOverviewMetrics (generateSampleData 1 0 zeroNoise) = none
    ∧ (generateSampleData 1 0 zeroNoise).length = 1
    ∧ (∀ s : Sample, missionOverviewMetrics [s] = none)
    ∧ (missionOverviewMetrics (generateSampleData 2 0 zeroNoise)).isSome = true :=
  ⟨rfl, rfl, fun _ => rfl, rfl⟩

/-- Claim C4: every generated sample's `power_pct` lies in `[60, 95]` and its
`speed_knots` in `[1.0, 3.5]`, for every draw of the noise. -/
theorem generate_power_speed_clamped (n : ℕ) (T : ℚ) (nz : Noise) (s : Sample)
    (hs : s ∈ generateSampleData n T nz) :
    60 ≤ s.power_pct ∧ s.power_pct ≤ 95
    ∧ 1 ≤ s.speed_knots ∧ s.speed_knots ≤ 7 / 2 := by
  obtain ⟨i, hilt, rfl⟩ := mem_generate.mp hs
  exact ⟨le_min (by norm_num) (le_max_left _ _), min_le_left _ _,
    le_min (by norm_num) (le_max_left _ _), min_le_left _ _⟩

/-- Witness for C4: the single row of a 1-sample series at instant 0 with
the zero draw. -/
theorem generate_power_speed_clamped_witness :
    60 ≤ (sampleAt 0 zeroNoise 1 0).power_pct
    ∧ (sampleAt 0 zeroNoise 1 0).power_pct ≤ 95
    ∧ 1 ≤ (sampleAt 0 zeroNoise 1 0).speed_knots
    ∧ (sampleAt 0 zeroNoise 1 0).speed_knots ≤ 7 / 2 :=
  generate_power_speed_clamped 1 0 zeroNoise _
    (mem_generate.mpr ⟨0, by norm_num, rfl⟩)

/-- Claim C5: every generated sample's `heading_deg` is the base 180 plus
the running cumulative sum of the Gaussian steps up to its index, wrapped by
modulo 360, and therefore lies in `[0, 360)`. -/
theorem generate_heading_wrapped (n : ℕ) (T : ℚ) (nz : Noise) (i : ℕ)
    (hi : i < (generateSampleData n T nz).length) :
    (generateSampleData n T nz)[i].heading_deg
      = wrap360 (180 + cumsum nz.headingStep i)
    ∧ 0 ≤ (generateSampleData n T nz)[i].heading_deg
    ∧ (generateSampleData n T nz)[i].heading_deg < 360 := by
  have hw : ∀ x : ℚ, 0 ≤ wrap360 x ∧ wrap360 x < 360 := by
    intro x
    have h1 := Int.floor_le (x / 360)
    have h2 := Int.lt_floor_add_one (x / 360)
    have h3 : x = 360 * (x / 360) := by ring
    rw [wrap360]
    constructor <;> linarith
  have he : (generateSampleData n T nz)[i].heading_deg
      = wrap360 (180 + cumsum nz.headingStep i) := by
    simp [generateSampleData, sampleAt]
  exact ⟨he, he ▸ (hw _).1, he ▸ (hw _).2⟩

/-- Witness for C5: the single row of a 1-sample series at instant 0 with
the zero draw. -/
theorem generate_heading_wrapped_witness :
    (generateSampleData 1 0 zeroNoise)[0].heading_deg
      = wrap360 (180 + cumsum zeroNoise.headingStep 0)
    ∧ 0 ≤ (generateSampleData 1 0 zeroNoise)[0].heading_deg
    ∧ (generateSampleData 1 0 zeroNoise)[0].heading_deg < 360 :=
  generate_heading_wrapped 1 0 zeroNoise 0 (by simp [generateSampleData])

/-- Claim C6: every generated sample's `pressure_kpa` is `1.3` times the
already-noised `depth_m` of the same row, plus the row's own pressure noise:
pressure is derived from depth, not generated independently. -/
theorem generate_pressure_coupled (n : ℕ) (T : ℚ) (nz : Noise) (i : ℕ)
    (hi : i < (generateSampleData n T nz).length) :
    (generateSampleData n T nz)[i].pressure_kpa
      = 13 / 10 * (generateSampleData n T nz)[i].depth_m
        + nz.pressNoise i := by
  simp [generateSampleData, sampleAt]

/-- Witness for C6: the single row of a 1-sample series at instant 0 with
the zero draw. -/
theorem generate_pressure_coupled_witness :
    (generateSampleData 1 0 zeroNoise)[0].pressure_kpa
      = 13 / 10 * (generateSampleData 1 0 zeroNoise)[0].depth_m
        + zeroNoise.pressNoise 0 :=
  generate_pressure_coupled 1 0 zeroNoise 0 (by simp [generateSampleData])

/-- Claim C7: the filter never reorders or duplicates samples (its output is
a sublist of its input, and no sample's multiplicity grows), and it is
idempotent: re-filtering by the same window, or by any wider one, returns
the first filtered series; likewise for "all". -/
theorem sidebar_filter_no_reorder_idempotent (minutes : Option ℚ) (w w' : ℚ)
    (df : List Sample) :
    (sidebarFilter minutes df).Sublist df
    ∧ (∀ s : Sample, (sidebarFilter minutes df).count s ≤ df.count s)
    ∧ (w ≤ w' →
        sidebarFilter (some w') (sidebarFilter (some w) df)
          = sidebarFilter (some w) df)
    ∧ sidebarFilter (some w) (sidebarFilter (some w) df)
        = sidebarFilter (some w) df
    ∧ sidebarFilter none (sidebarFilter none df) = sidebarFilter none df :=
  ⟨sidebarFilter_sublist minutes df,
    fun s => (sidebarFilter_sublist minutes df).count_le s,
    fun h => sidebarFilter_idem df h,
    sidebarFilter_idem df le_rfl, rfl⟩

/-- Claim C8: `sidebar_filters` does not mutate its input frame — the frame
is the same after the call — and its result preserves the input's original
ordering (it is a sublist of the input). -/
theorem sidebar_filters_pure (minutes : Option ℚ) (df : List Sample) :
    (sidebarFiltersCall minutes df).2 = df
    ∧ ((sidebarFiltersCall minutes df).1).Sublist df
    ∧ (sidebarFiltersCall minutes df).1 = sidebarFilter minutes df :=
  ⟨rfl, sidebarFilter_sublist minutes df, rfl⟩

/-- Claim C9: the `MISSION` record created at session start `t` carries the
eight fixed field values, and neither the overview call nor the whole
filtered render pass changes it. -/
theorem mission_record_immutable (t now : ℚ) (st : MissionStatus)
    (minutes : Option ℚ) (df : List Sample) :
    missionAfterRun t now minutes df = MISSION t
    ∧ (missionOverviewCall now st df).1 = st
    ∧ (missionOverviewCall now st df).2.1 = renderMissionDetails now st
    ∧ (MISSION t).mission_name = "Poseidon-7 Survey"
    ∧ (MISSION t).objective = "Map subsea pipeline integrity and capture HD imagery"
    ∧ (MISSION t).location = "North Sea Block 15"
    ∧ (MISSION t).pilot = "Casey Morgan"
    ∧ (MISSION t).supervisor = "Lt. Priya Desai"
    ∧ (MISSION t).start_time = t - (3 * 60 + 27)
    ∧ (MISSION t).status = "Active"
    ∧ (MISSION t).notes = "Monitoring cross-current turbulence; maintain depth < 350m." :=
  ⟨rfl, rfl, rfl, rfl, rfl, rfl, rfl, rfl, rfl, rfl, rfl⟩

/-- Claim C10: for every non-empty series and finite window `w ≥ 0`, the
filtered result is non-empty: it contains a sample carrying the input's
maximum timestamp, which always meets the cutoff. -/
theorem sidebar_filter_keeps_latest (df : List Sample) (w : ℚ)
    (hdf : df ≠ []) (hw : 0 ≤ w) :
    sidebarFilter (some w) df ≠ []
    ∧ ∃ s ∈ sidebarFilter (some w) df,
        maxTimestamp df = some s.timestamp := by
  obtain ⟨m, hm⟩ := maxTimestamp_isSome hdf
  obtain ⟨u, hu, hue⟩ := maxTimestamp_mem hm
  have humem : u ∈ sidebarFilter (some w) df :=
    (mem_sidebarFilter hm).mpr ⟨hu, by rw [hue]; linarith⟩
  exact ⟨List.ne_nil_of_mem humem, u, humem, by rw [hm, hue]⟩

/-- Witness for C10: a two-sample series at instant 0 with the zero draw,
filtered by the zero-width window, still holds the newest sample. -/
theorem sidebar_filter_keeps_latest_witness :
    sidebarFilter (some 0) (generateSampleData 2 0 zeroNoise) ≠ []
    ∧ ∃ s ∈ sidebarFilter (some 0) (generateSampleData 2 0 zeroNoise),
        maxTimestamp (generateSampleData 2 0 zeroNoise) = some s.timestamp :=
  sidebar_filter_keeps_latest (generateSampleData 2 0 zeroNoise) 0
    (by simp [generateSampleData]) le_rfl

end ROVDash

